import Mathlib

/-!
Verification of `src/scripts/trace-by-color.py` against its specification.

The script is embedded shallowly: strings are `List Char`, the Python regular
expressions of the script are translated into explicit scanners, external
process invocations (ImageMagick, potrace) are modelled by their observable
outcomes, and the imperative per-color loop of `main` becomes a recursion
that accumulates the same final state (fragments appended in order, first
successful header retained, error reports in order).
-/

set_option maxRecDepth 100000

namespace TraceByColor

/-- RGB color triple, one 0–255 value per channel, as the script stores palette
entries (`colors.append((r, g, b))`, line 36). -/
abbrev Color := Nat × Nat × Nat

/-- Characters removed by Python `str.strip()` with no argument. -/
def pyIsSpace (ch : Char) : Bool :=
  ch = ' ' || ch = '\t' || ch = '\n' || ch = '\r' || ch = '\x0b' || ch = '\x0c'

/-- Python `s.strip()`: drop leading and trailing whitespace. -/
def pyStrip (l : List Char) : List Char :=
  ((l.dropWhile pyIsSpace).reverse.dropWhile pyIsSpace).reverse

/-- Python `s.split` on a single newline separator, keeping empty pieces
(line 25 of the script splits ImageMagick stdout into lines). -/
def splitLines : List Char → List (List Char)
  | [] => [[]]
  | c :: t =>
    if c = '\n' then [] :: splitLines t
    else
      match splitLines t with
      | [] => [[c]]
      | h :: r => (c :: h) :: r

/-- Python `int()` on a nonempty decimal digit string. -/
def natOfDigits (ds : List Char) : Nat :=
  ds.foldl (fun a c => a * 10 + (c.toNat - '0'.toNat)) 0

/-- Match a maximal nonempty digit run followed by the separator `sep`,
returning the parsed number and the rest of the input.  This is the
behaviour of one `(\d+)` group of the pixel-line pattern followed by a
literal separator: the digit run is maximal and the separator is not a
digit, so greedy matching needs no backtracking here. -/
def parseNumThen (sep : Char) (l : List Char) : Option (Nat × List Char) :=
  if l.takeWhile Char.isDigit = [] then none
  else
    match l.dropWhile Char.isDigit with
    | c :: rest2 => if c = sep then some (natOfDigits (l.takeWhile Char.isDigit), rest2) else none
    | [] => none

/-- Attempt the pixel pattern of line 29 of the script anchored at the head of
the input: a parenthesised comma-separated quadruple of decimal numbers. -/
def matchRGBAHere (l : List Char) : Option (Nat × Nat × Nat × Nat) :=
  match l with
  | '(' :: r0 =>
    match parseNumThen ',' r0 with
    | none => none
    | some (rv, r1) =>
      match parseNumThen ',' r1 with
      | none => none
      | some (gv, r2) =>
        match parseNumThen ',' r2 with
        | none => none
        | some (bv, r3) =>
          match parseNumThen ')' r3 with
          | none => none
          | some (av, _) => some (rv, gv, bv, av)
  | _ => none

/-- Python `re.search` of the pixel pattern: the leftmost position at which
the quadruple pattern matches, if any (script line 29). -/
def searchRGBA : List Char → Option (Nat × Nat × Nat × Nat)
  | [] => none
  | c :: t =>
    match matchRGBAHere (c :: t) with
    | some x => some x
    | none => searchRGBA t

/-- Filtering of one parsed pixel quadruple (script lines 31–36): drop entries
with alpha below 128, drop near-white entries when `skip_white` is set, and
otherwise keep the RGB triple. -/
def keepColor (skip_white : Bool) : Option (Nat × Nat × Nat × Nat) → Option Color
  | none => none
  | some (r, g, b, a) =>
    if a < 128 then none
    else if skip_white ∧ 220 < r ∧ 220 < g ∧ 220 < b then none
    else some (r, g, b)

/-- Loop body of `get_dominant_colors` (script lines 25–36) for one line of
ImageMagick output: skip empty lines and comment lines, search for the
pixel quadruple, then filter the parsed entry. -/
def lineColor (skip_white : Bool) (line : List Char) : Option Color :=
  if line = [] then none
  else if line.head? = some '#' then none
  else keepColor skip_white (searchRGBA line)

/-- Embedding of `get_dominant_colors` (script lines 18–37) applied to the
text output of the ImageMagick invocation: strip, split into lines, filter
and parse each line, and truncate to `n_colors` entries. -/
def get_dominant_colors (stdout : List Char) (n_colors : Nat) (skip_white : Bool) : List Color :=
  ((splitLines (pyStrip stdout)).filterMap (lineColor skip_white)).take n_colors

/-- Per-line parse of the pixel quadruple with the same line-level skipping as
the loop of `get_dominant_colors`, but before any color filtering — the raw
colors parsed from the selector output. -/
def lineRGBA (line : List Char) : Option (Nat × Nat × Nat × Nat) :=
  if line = [] then none
  else if line.head? = some '#' then none
  else searchRGBA line

/-- All colors parsed from the selector output, in order, before the opacity,
near-white and count filters of `get_dominant_colors` are applied. -/
def parsedColors (stdout : List Char) : List Color :=
  (((splitLines (pyStrip stdout)).filterMap lineRGBA).map (fun q => (q.1, q.2.1, q.2.2.1)))

/-- Python `f"\x7br:02x\x7d"`-style zero padding to width two. -/
def pad2 (ds : List Char) : List Char :=
  List.replicate (2 - ds.length) '0' ++ ds

/-- The fill string built at line 44 of the script:
hash sign followed by three two-digit zero-padded lowercase hex channels. -/
def hexColor (c : Color) : List Char :=
  '#' :: (pad2 (Nat.toDigits 16 c.1) ++ pad2 (Nat.toDigits 16 c.2.1) ++ pad2 (Nat.toDigits 16 c.2.2))

/-- First index at or after `pos` where `sub` occurs in the given list. -/
def findIdxFrom (sub : List Char) : List Char → Nat → Option Nat
  | [], pos => if sub = [] then some pos else none
  | c :: t, pos =>
    if sub.isPrefixOf (c :: t) then some pos else findIdxFrom sub t (pos + 1)

/-- Python `s.find(sub, start)`: normalize a possibly negative start index
against the length, then return the first match index, or -1. -/
def pyFind (l sub : List Char) (start : Int) : Int :=
  match findIdxFrom sub (l.drop (if start < 0 then ((l.length : Int) + start).toNat else start.toNat))
      (if start < 0 then ((l.length : Int) + start).toNat else start.toNat) with
  | some i => (i : Int)
  | none => -1

/-- Python slice `s[i:j]` with possibly negative bounds. -/
def pySlice (l : List Char) (i j : Int) : List Char :=
  (l.take (if j < 0 then ((l.length : Int) + j).toNat else min j.toNat l.length)).drop
    (if i < 0 then ((l.length : Int) + i).toNat else min i.toNat l.length)

/-- Python substring test `sub in s`. -/
def hasSub (sub : List Char) : List Char → Bool
  | [] => sub.isEmpty
  | c :: t => sub.isPrefixOf (c :: t) || hasSub sub t

/-- Search for the group-tag pattern of script line 87: at the leftmost
occurrence of a group-tag opener followed eventually by a closing angle
bracket, capture the attribute text between them. -/
def searchGTag : List Char → Option (List Char)
  | [] => none
  | c :: t =>
    if ("<g ".toList).isPrefixOf (c :: t) then
      if ((c :: t).drop 3).takeWhile (fun ch => ch ≠ '>') = (c :: t).drop 3 then searchGTag t
      else some (((c :: t).drop 3).takeWhile (fun ch => ch ≠ '>'))
    else searchGTag t

/-- Search for the transform-attribute pattern of script line 92 inside the
group attribute text: capture the quoted value of the transform attribute. -/
def searchTransformAttr : List Char → Option (List Char)
  | [] => none
  | c :: t =>
    if ("transform=\"".toList).isPrefixOf (c :: t) then
      if ((c :: t).drop 11).takeWhile (fun ch => ch ≠ '"') = (c :: t).drop 11 then
        searchTransformAttr t
      else some (((c :: t).drop 11).takeWhile (fun ch => ch ≠ '"'))
    else searchTransformAttr t

/-- One step of `re.findall` for the path pattern of script line 95: at a
path-tag opener, the attribute run extends to the first closing angle
bracket; the match succeeds when that run ends in a slash (self-closing
tag), capturing the run without the slash, and scanning resumes after the
whole match; on failure scanning resumes one character later.  The fuel
argument bounds the recursion; every step consumes at least one character,
so fuel equal to the input length is always sufficient. -/
def findallPathsAux : Nat → List Char → List (List Char)
  | 0, _ => []
  | _, [] => []
  | fuel + 1, c :: t =>
    if ("<path ".toList).isPrefixOf (c :: t) then
      if (((c :: t).drop 6).takeWhile (fun ch => ch ≠ '>')).length < ((c :: t).drop 6).length
          ∧ (((c :: t).drop 6).takeWhile (fun ch => ch ≠ '>')).getLast? = some '/' then
        (((c :: t).drop 6).takeWhile (fun ch => ch ≠ '>')).dropLast
          :: findallPathsAux fuel
              (((c :: t).drop 6).drop ((((c :: t).drop 6).takeWhile (fun ch => ch ≠ '>')).length + 1))
      else findallPathsAux fuel t
    else findallPathsAux fuel t

/-- Python `re.findall` of the path pattern over the whole layer file. -/
def findallPaths (content : List Char) : List (List Char) :=
  findallPathsAux content.length content

/-- Group attribute text extracted at script lines 87–88 (empty when the
pattern does not match). -/
def pyGAttrs (content : List Char) : List Char :=
  match searchGTag content with
  | some a => a
  | none => []

/-- Transform string extracted at script lines 90–94: empty unless the
attribute text contains a transform attribute whose quoted value the
pattern captures. -/
def pyTransformOf (content : List Char) : List Char :=
  if hasSub ("transform=".toList) (pyGAttrs content) then
    match searchTransformAttr (pyGAttrs content) with
    | some tcap => tcap
    | none => []
  else []

/-- Root-element header sliced out at script lines 83–85. -/
def svgOpenOf (content : List Char) : List Char :=
  pySlice content (pyFind content ("<svg".toList) 0)
    ((pyFind content (">".toList) (pyFind content ("<svg".toList) 0)) + 1)

/-- A path element with the fill attribute appended, as built at script
line 101. -/
def mkFilledPath (fill attrs : List Char) : List Char :=
  ("<path ".toList) ++ attrs ++ (" fill=\"".toList) ++ fill ++ ("\"/>".toList)

/-- The single group element built at script lines 98–99: transform and fill
declared once on the group, the path elements joined inside it. -/
def mkGroup (transform fill : List Char) (raws : List (List Char)) : List Char :=
  ("<g transform=\"".toList) ++ transform ++ ("\" fill=\"".toList) ++ fill ++ ("\">\n".toList)
  ++ (List.intercalate ("\n".toList) (raws.map (fun attrs => ("    <path ".toList) ++ attrs ++ ("/>".toList))))
  ++ ("\n  </g>".toList)

/-- Embedding of `extract_svg_paths` (script lines 79–102): slice the header,
extract the transform and the raw path attributes, then either wrap all
paths in one group carrying transform and fill, or attach the fill to each
path individually when no transform was captured. -/
def extract_svg_paths (content fill_color : List Char) : List Char × List (List Char) :=
  if pyTransformOf content ≠ [] then
    (svgOpenOf content, [mkGroup (pyTransformOf content) fill_color (findallPaths content)])
  else
    (svgOpenOf content, (findallPaths content).map (mkFilledPath fill_color))

/-- Observable outcome of one color's external tracing steps, as seen by the
loop of `main` (script lines 124–129): the mask-building ImageMagick call
failed (CalledProcessError, caught at line 72), the potrace call failed
(same handler), some other exception escaped `trace_color_layer` (caught by
the blanket handler at line 128), or both calls succeeded and potrace wrote
the given layer file. -/
inductive TraceStep where
  | maskFailed
  | vectorizeFailed
  | raised
  | traced (content : List Char)

/-- Embedding of `trace_color_layer` (script lines 39–77) composed with the
blanket exception handler of `main` (lines 126–129): the returned value is
the hex color string or nothing, paired with the list of colors for which
the CalledProcessError handler printed an error report (lines 72–74). -/
def trace_color_layer (c : Color) : TraceStep → Option (List Char) × List Color
  | TraceStep.maskFailed => (none, [c])
  | TraceStep.vectorizeFailed => (none, [c])
  | TraceStep.raised => (none, [])
  | TraceStep.traced _ => (some (hexColor c), [])

/-- Contribution of one color to the loop state of `main` (lines 124–134):
fragments extracted from the layer file, the header of the layer when
tracing succeeded, and the error report when the tool-failure handler ran. -/
def perColor (c : Color) : TraceStep → List (List Char) × Option (List Char) × List Color
  | TraceStep.maskFailed => ([], none, [c])
  | TraceStep.vectorizeFailed => ([], none, [c])
  | TraceStep.raised => ([], none, [])
  | TraceStep.traced content =>
    ((extract_svg_paths content (hexColor c)).2, some (extract_svg_paths content (hexColor c)).1, [])

/-- Final state of the per-color loop of `main` (lines 120–134). -/
structure LoopOut where
  all_paths : List (List Char)
  svg_header : Option (List Char)
  reported : List Color

/-- The per-color loop of `main` (lines 120–134) over the palette with each
color's external outcome: fragments are appended in palette order, the
header of the first successfully traced layer is retained, and error
reports accumulate in order.  The recursion reproduces exactly the final
state of the imperative loop. -/
def runLoop : List (Color × TraceStep) → LoopOut
  | [] => ⟨[], none, []⟩
  | (c, s) :: rest =>
    ⟨(perColor c s).1 ++ (runLoop rest).all_paths,
     match (perColor c s).2.1 with
     | some h => some h
     | none => (runLoop rest).svg_header,
     (perColor c s).2.2 ++ (runLoop rest).reported⟩

/-- The message printed at script line 137 before the nonzero exit. -/
def noPathsMsg : List Char := "No paths generated".toList

/-- One step of Python `s.replace(pat, rep)`: replace non-overlapping
occurrences left to right.  Fuel equal to the input length is sufficient
for a nonempty pattern, since every step consumes at least one character. -/
def pyReplaceAux (pat rep : List Char) : Nat → List Char → List Char
  | 0, l => l
  | fuel + 1, l =>
    match l with
    | [] => []
    | c :: t =>
      if pat.isPrefixOf (c :: t) then rep ++ pyReplaceAux pat rep fuel ((c :: t).drop pat.length)
      else c :: pyReplaceAux pat rep fuel t

/-- Python `s.replace(pat, rep)` for a nonempty pattern. -/
def pyReplace (l pat rep : List Char) : List Char :=
  pyReplaceAux pat rep l.length l

/-- The header fix-up of `main` (script lines 141–142): when the retained
header does not mention a viewBox, splice the hardcoded coordinate box next
to the hardcoded canvas height. -/
def fixHeader (hdr : List Char) : List Char :=
  if hasSub ("viewBox".toList) hdr then hdr
  else pyReplace hdr ("height=\"598\"".toList) ("height=\"598\" viewBox=\"0 0 644 598\"".toList)

/-- The serialized document written at script lines 144–149. -/
def buildDocument (hdr : List Char) (paths : List (List Char)) : List Char :=
  ("<?xml version=\"1.0\" encoding=\"UTF-8\"?>\n".toList)
  ++ hdr ++ ("\n".toList)
  ++ (paths.map (fun p => ("  ".toList) ++ p ++ ("\n".toList))).flatten
  ++ ("</svg>\n".toList)

/-- Header value used by the assembly stage; the none case is unreachable
whenever at least one fragment exists. -/
def headerOrEmpty : Option (List Char) → List Char
  | some h => h
  | none => []

/-- Assembly stage of `main` (script lines 136–149): with no fragments,
report the distinct message and exit nonzero with no file written
(modelled as the error branch); otherwise write the assembled document. -/
def mainResult (layers : List (Color × TraceStep)) : Except (List Char) (List Char) :=
  if (runLoop layers).all_paths = [] then Except.error noPathsMsg
  else Except.ok (buildDocument (fixHeader (headerOrEmpty (runLoop layers).svg_header)) (runLoop layers).all_paths)

/-- One channel of the spec's stated fill encoding: two zero-padded lowercase
hexadecimal digits (stated from the spec's words, for comparison with the
script's formatting). -/
def specHexByte (n : Nat) : List Char :=
  [Nat.digitChar (n / 16), Nat.digitChar (n % 16)]

/-- Lowercase hexadecimal digit test. -/
def isLowerHexDigit (ch : Char) : Bool :=
  (decide ('0' ≤ ch) && decide (ch ≤ '9')) || (decide ('a' ≤ ch) && decide (ch ≤ 'f'))

/-- Layer file with a group transform and zero path elements. -/
def grpNoPathContent : List Char :=
  ("<svg width=\"10\" height=\"10\"><g transform=\"scale(0.1)\"></g></svg>").toList

/-- Layer file with neither a transform nor any path element. -/
def plainEmptyContent : List Char :=
  ("<svg width=\"10\" height=\"10\"></svg>").toList

/-- Layer file with no root element but one path element. -/
def rootlessPathContent : List Char :=
  ("<path d=\"M0 0L4 4\"/>").toList

/-- Layer file with no viewBox, a 100 by 100 canvas, and one path element. -/
def canvas100Content : List Char :=
  ("<svg width=\"100\" height=\"100\">\n<path d=\"M0 0L9 9\"/>\n</svg>").toList

/-- Layer file with a transform and one path element. -/
def grpOnePathContent : List Char :=
  ("<svg height=\"5\"><g transform=\"translate(1,2)\"><path d=\"M0 0\"/></g></svg>").toList

/-- Claim C1, counterexample: a traced layer with zero path geometries but a
shared transform still contributes one (empty group) fragment to the
assembled fragment list, so a geometry-less layer is not always dropped. -/
theorem claimC1_cex :
    findallPaths grpNoPathContent = []
    ∧ (runLoop [((255, 0, 0), TraceStep.traced grpNoPathContent)]).all_paths.length = 1 :=
  ⟨rfl, rfl⟩

/-- Claim C1, amended: a traced layer with zero path geometries contributes no
fragment when it carries no transform, but when it carries a transform it
contributes exactly one group fragment containing no geometries. -/
theorem claimC1_thm (content fill : List Char) (h : findallPaths content = []) :
    (pyTransformOf content = [] → (extract_svg_paths content fill).2 = [])
    ∧ (pyTransformOf content ≠ [] →
        (extract_svg_paths content fill).2 = [mkGroup (pyTransformOf content) fill []]) := by
  constructor
  · intro ht
    simp [extract_svg_paths, ht, h]
  · intro ht
    simp [extract_svg_paths, ht, h]

/-- Witness for claim C1's amended theorem at two concrete layer files, one
without and one with a transform. -/
theorem claimC1_wit :
    (extract_svg_paths plainEmptyContent ("#ff0000".toList)).2 = []
    ∧ (extract_svg_paths grpNoPathContent ("#ff0000".toList)).2
        = [mkGroup ("scale(0.1)".toList) ("#ff0000".toList) []] := by
  constructor
  · exact (claimC1_thm plainEmptyContent ("#ff0000".toList) rfl).1 rfl
  · exact ((claimC1_thm grpNoPathContent ("#ff0000".toList) rfl).2 (by decide)).trans (by rfl)

/-- Claim C3, counterexample: a layer whose output is malformed (it has no
root element at all) is not treated as empty — its path element is still
extracted and the color contributes a fragment to the final list. -/
theorem claimC3_cex :
    pyFind rootlessPathContent ("<svg".toList) 0 = -1
    ∧ (runLoop [((255, 0, 0), TraceStep.traced rootlessPathContent)]).all_paths
        = [("<path d=\"M0 0L4 4\" fill=\"#ff0000\"/>").toList] :=
  ⟨rfl, rfl⟩

/-- Claim C3, amended: processing a traced layer never aborts the loop — the
layer contributes exactly the fragments its lenient extraction yields and
the remaining colors are processed unchanged; a malformed layer from which
no path element and no transform can be parsed contributes no fragment. -/
theorem claimC3_thm (c : Color) (content : List Char) (rest : List (Color × TraceStep)) :
    (runLoop ((c, TraceStep.traced content) :: rest)).all_paths
      = (extract_svg_paths content (hexColor c)).2 ++ (runLoop rest).all_paths
    ∧ (findallPaths content = [] → pyTransformOf content = [] →
        (runLoop ((c, TraceStep.traced content) :: rest)).all_paths = (runLoop rest).all_paths) := by
  constructor
  · rfl
  · intro h1 h2
    simp [runLoop, perColor, extract_svg_paths, h1, h2]

/-- Witness for claim C3's amended theorem: a geometry-less layer placed in
front of another color leaves that color's processing unchanged. -/
theorem claimC3_wit :
    (runLoop [((1, 1, 1), TraceStep.traced plainEmptyContent),
        ((2, 2, 2), TraceStep.traced rootlessPathContent)]).all_paths
      = (runLoop [((2, 2, 2), TraceStep.traced rootlessPathContent)]).all_paths :=
  (claimC3_thm (1, 1, 1) plainEmptyContent _).2 rfl rfl

/-- Claim C4: with an empty collected fragment list the run fails with the
distinct message and writes nothing, and a document is produced exactly
when at least one fragment exists. -/
theorem claimC4_thm (layers : List (Color × TraceStep)) :
    ((runLoop layers).all_paths = [] →
        mainResult layers = Except.error ("No paths generated".toList))
    ∧ (∀ doc, mainResult layers = Except.ok doc → (runLoop layers).all_paths ≠ [])
    ∧ ((runLoop layers).all_paths ≠ [] → ∃ doc, mainResult layers = Except.ok doc) := by
  by_cases h : (runLoop layers).all_paths = [] <;>
    simp [mainResult, h, noPathsMsg]

/-- Witness for claim C4 at concrete runs: the empty palette fails with the
message, and a run with one surviving fragment produces a document. -/
theorem claimC4_wit :
    mainResult [] = Except.error ("No paths generated".toList)
    ∧ ∃ doc, mainResult [((16, 32, 48), TraceStep.traced canvas100Content)] = Except.ok doc := by
  constructor
  · exact (claimC4_thm []).1 rfl
  · exact (claimC4_thm [((16, 32, 48), TraceStep.traced canvas100Content)]).2.2 (by decide)

/-- Claim C5: an external-tool failure for one color is recovered locally —
`trace_color_layer` returns no result and reports the error, and the loop
state over the remaining colors is exactly as if the failed color had not
been there, apart from the report. -/
theorem claimC5_thm (c : Color) (rest : List (Color × TraceStep)) :
    (trace_color_layer c TraceStep.maskFailed = (none, [c])
      ∧ trace_color_layer c TraceStep.vectorizeFailed = (none, [c]))
    ∧ ((runLoop ((c, TraceStep.maskFailed) :: rest)).all_paths = (runLoop rest).all_paths
      ∧ (runLoop ((c, TraceStep.maskFailed) :: rest)).svg_header = (runLoop rest).svg_header
      ∧ (runLoop ((c, TraceStep.maskFailed) :: rest)).reported = c :: (runLoop rest).reported)
    ∧ ((runLoop ((c, TraceStep.vectorizeFailed) :: rest)).all_paths = (runLoop rest).all_paths
      ∧ (runLoop ((c, TraceStep.vectorizeFailed) :: rest)).svg_header = (runLoop rest).svg_header
      ∧ (runLoop ((c, TraceStep.vectorizeFailed) :: rest)).reported = c :: (runLoop rest).reported) :=
  ⟨⟨rfl, rfl⟩, ⟨rfl, rfl, rfl⟩, ⟨rfl, rfl, rfl⟩⟩

/-- Claim C7: the assembled fragment list is the concatenation, in palette
order, of each color's fragments; in particular for a three-color palette
in which all three colors were traced, the fragments appear in exactly the
order of the first, second and third palette color. -/
theorem claimC7_thm :
    (∀ layers : List (Color × TraceStep),
        (runLoop layers).all_paths = (layers.map (fun p => (perColor p.1 p.2).1)).flatten)
    ∧ ∀ (c1 c2 c3 : Color) (t1 t2 t3 : List Char),
        (runLoop [(c1, TraceStep.traced t1), (c2, TraceStep.traced t2),
            (c3, TraceStep.traced t3)]).all_paths
          = (extract_svg_paths t1 (hexColor c1)).2 ++ (extract_svg_paths t2 (hexColor c2)).2
            ++ (extract_svg_paths t3 (hexColor c3)).2 := by
  constructor
  · intro layers
    induction layers with
    | nil => rfl
    | cons p rest ih =>
      obtain ⟨c, s⟩ := p
      simp [runLoop, ih]
  · intro c1 c2 c3 t1 t2 t3
    simp [runLoop, perColor, List.append_assoc]

/-- Claim C8: when a shared transform was captured, normalization yields
exactly one group fragment carrying that transform and the fill and
containing all of the layer's geometries; with no transform, the fill is
attached to each geometry individually and the fragments are exactly the
individually filled paths. -/
theorem claimC8_thm (content fill : List Char) :
    (pyTransformOf content ≠ [] →
        (extract_svg_paths content fill).2
            = [mkGroup (pyTransformOf content) fill (findallPaths content)]
        ∧ ((extract_svg_paths content fill).2).length = 1)
    ∧ (pyTransformOf content = [] →
        (extract_svg_paths content fill).2 = (findallPaths content).map (mkFilledPath fill)
        ∧ ((extract_svg_paths content fill).2).length = (findallPaths content).length) := by
  constructor <;> intro h <;> simp [extract_svg_paths, h]

/-- Witness for claim C8 at a concrete transformed layer with one geometry. -/
theorem claimC8_wit :
    (extract_svg_paths grpOnePathContent ("#0a141e".toList)).2
      = [mkGroup ("translate(1,2)".toList) ("#0a141e".toList) [("d=\"M0 0\"".toList)]]
    ∧ ((extract_svg_paths grpOnePathContent ("#0a141e".toList)).2).length = 1 := by
  have h := (claimC8_thm grpOnePathContent ("#0a141e".toList)).1 (by decide)
  exact ⟨h.1.trans (by rfl), h.2⟩

/-- A prefix of a list is a prefix of that list extended on the right. -/
lemma isPrefixOf_append_right {s : List Char} (b a : List Char)
    (h : s.isPrefixOf a = true) : s.isPrefixOf (a ++ b) = true := by
  rw [List.isPrefixOf_iff_prefix] at h ⊢
  exact h.trans (List.prefix_append a b)

/-- The empty pattern occurs in every list. -/
lemma hasSub_nil_pat (l : List Char) : hasSub [] l = true := by
  cases l <;> simp [hasSub, List.isPrefixOf]

/-- An occurrence in a list survives extending the list on the right. -/
lemma hasSub_append_right (s b : List Char) :
    ∀ a : List Char, hasSub s a = true → hasSub s (a ++ b) = true := by
  intro a
  induction a with
  | nil =>
    intro h
    have hs : s = [] := by simpa [hasSub, List.isEmpty_iff] using h
    subst hs
    exact hasSub_nil_pat b
  | cons y ys ih =>
    intro h
    rcases (by simpa [hasSub] using h : s.isPrefixOf (y :: ys) = true ∨ hasSub s ys = true) with h | h
    · have h2 := isPrefixOf_append_right b (y :: ys) h
      simp only [List.cons_append] at h2 ⊢
      simp [hasSub, h2]
    · have h2 := ih h
      simp [hasSub, h2]

/-- Replacing a pattern that does not occur leaves the list unchanged. -/
lemma pyReplaceAux_of_not_hasSub (pat rep : List Char) :
    ∀ fuel l, hasSub pat l = false → pyReplaceAux pat rep fuel l = l := by
  intro fuel
  induction fuel with
  | zero => intro l _; rfl
  | succ f ih =>
    intro l h
    cases l with
    | nil => rfl
    | cons c t =>
      have h' : pat.isPrefixOf (c :: t) = false ∧ hasSub pat t = false := by
        have := h
        simp [hasSub] at this
        exact this
      simp [pyReplaceAux, h'.1, ih t h'.2]

/-- Whenever a nonempty pattern occurs and the replacement contains `sub`,
the replaced list contains `sub`. -/
lemma hasSub_pyReplaceAux (pat rep sub : List Char) (hpat : pat ≠ [])
    (hrep : hasSub sub rep = true) :
    ∀ fuel l, l.length ≤ fuel → hasSub pat l = true →
      hasSub sub (pyReplaceAux pat rep fuel l) = true := by
  intro fuel
  induction fuel with
  | zero =>
    intro l hl hp
    have : l = [] := List.length_eq_zero.mp (Nat.le_zero.mp hl)
    subst this
    have : pat.isEmpty = true := by simpa [hasSub] using hp
    exact absurd (List.isEmpty_iff.mp this) hpat
  | succ f ih =>
    intro l hl hp
    cases l with
    | nil =>
      have : pat.isEmpty = true := by simpa [hasSub] using hp
      exact absurd (List.isEmpty_iff.mp this) hpat
    | cons c t =>
      cases hpre : pat.isPrefixOf (c :: t) with
      | true =>
        simp only [pyReplaceAux, hpre, if_true]
        exact hasSub_append_right sub _ rep hrep
      | false =>
        have hp' : hasSub pat t = true := by
          rcases (by simpa [hasSub] using hp : pat.isPrefixOf (c :: t) = true ∨ hasSub pat t = true)
            with h | h
          · rw [hpre] at h
            exact absurd h (by simp)
          · exact h
        have ht : t.length ≤ f := Nat.le_of_succ_le_succ hl
        simp [pyReplaceAux, hpre, hasSub, ih t ht hp']

/-- A header without a viewBox and with a 100 by 100 canvas. -/
def hdrCanvas100 : List Char := ("<svg width=\"100\" height=\"100\">").toList

/-- A header without a viewBox and with the hardcoded 644 by 598 canvas. -/
def hdrCanvas598 : List Char := ("<svg width=\"644\" height=\"598\">").toList

/-- The document assembled from the 100 by 100 layer. -/
def doc100 : List Char :=
  buildDocument (fixHeader (svgOpenOf canvas100Content))
    ((extract_svg_paths canvas100Content (hexColor (16, 32, 48))).2)

/-- Claim C2, counterexample: for the 100 by 100 canvas the assembled
document is produced without any coordinate box at all — the viewBox
synthesis only fires on the hardcoded 598 canvas height. -/
theorem claimC2_cex :
    hasSub ("viewBox".toList) (svgOpenOf canvas100Content) = false
    ∧ mainResult [((16, 32, 48), TraceStep.traced canvas100Content)] = Except.ok doc100
    ∧ hasSub ("viewBox".toList) doc100 = false
    ∧ hasSub ("height=\"100\"".toList) doc100 = true :=
  ⟨rfl, rfl, rfl, rfl⟩

/-- Claim C2, amended: assembly leaves a header that already mentions a
viewBox unchanged; otherwise it performs a literal textual replacement
that splices the fixed box `0 0 644 598` next to the hardcoded canvas
height 598 — so a header of any other canvas size is emitted unchanged,
without a coordinate box, while a header containing the hardcoded height
does gain a viewBox. -/
theorem claimC2_thm (hdr : List Char) :
    (hasSub ("viewBox".toList) hdr = true → fixHeader hdr = hdr)
    ∧ (hasSub ("viewBox".toList) hdr = false →
        fixHeader hdr
          = pyReplace hdr ("height=\"598\"".toList)
              ("height=\"598\" viewBox=\"0 0 644 598\"".toList)
        ∧ (hasSub ("height=\"598\"".toList) hdr = false → fixHeader hdr = hdr)
        ∧ (hasSub ("height=\"598\"".toList) hdr = true →
            hasSub ("viewBox".toList) (fixHeader hdr) = true)) := by
  constructor
  · intro h
    simp only [fixHeader]
    rw [if_pos h]
  · intro h
    have hneg : ¬ (hasSub ("viewBox".toList) hdr = true) := by
      rw [h]
      exact Bool.false_ne_true
    refine ⟨?_, ?_, ?_⟩
    · simp only [fixHeader]
      rw [if_neg hneg]
    · intro h598
      simp only [fixHeader]
      rw [if_neg hneg]
      exact pyReplaceAux_of_not_hasSub _ _ _ _ h598
    · intro h598
      simp only [fixHeader]
      rw [if_neg hneg]
      exact hasSub_pyReplaceAux _ _ _ (by decide) (by decide) _ hdr le_rfl h598

/-- Witness for claim C2's amended theorem: the hardcoded 598 header gains
exactly the fixed viewBox, and the 100 by 100 header is left unchanged. -/
theorem claimC2_wit :
    fixHeader hdrCanvas598
      = ("<svg width=\"644\" height=\"598\" viewBox=\"0 0 644 598\">").toList
    ∧ fixHeader hdrCanvas100 = hdrCanvas100 := by
  constructor
  · exact (((claimC2_thm hdrCanvas598).2 rfl).1).trans (by rfl)
  · exact ((claimC2_thm hdrCanvas100).2 rfl).2.1 rfl

/-- Claim C6: the palette returned for any selector output has at most
`n_colors` entries, and every entry was parsed from some line of that
output with alpha at least 128 and, when near-white skipping is on, not
with all three channels above 220. -/
theorem claimC6_thm (stdout : List Char) (n : Nat) (skip : Bool) :
    (get_dominant_colors stdout n skip).length ≤ n
    ∧ ∀ c, c ∈ get_dominant_colors stdout n skip →
        ∃ line, line ∈ splitLines (pyStrip stdout) ∧ ∃ a,
          searchRGBA line = some (c.1, c.2.1, c.2.2, a) ∧ 128 ≤ a
          ∧ (skip = true → ¬(220 < c.1 ∧ 220 < c.2.1 ∧ 220 < c.2.2)) := by
  constructor
  · exact List.length_take_le n _
  · intro c hc
    have hc2 : c ∈ (splitLines (pyStrip stdout)).filterMap (lineColor skip) :=
      List.mem_of_mem_take hc
    obtain ⟨line, hline, heq⟩ := List.mem_filterMap.mp hc2
    refine ⟨line, hline, ?_⟩
    unfold lineColor at heq
    by_cases h1 : line = []
    · rw [if_pos h1] at heq
      exact absurd heq (by simp)
    rw [if_neg h1] at heq
    by_cases h2 : line.head? = some '#'
    · rw [if_pos h2] at heq
      exact absurd heq (by simp)
    rw [if_neg h2] at heq
    cases hs : searchRGBA line with
    | none =>
      rw [hs] at heq
      exact absurd heq (by simp [keepColor])
    | some q =>
      obtain ⟨r, g, b, a⟩ := q
      rw [hs] at heq
      simp only [keepColor] at heq
      by_cases h3 : a < 128
      · rw [if_pos h3] at heq
        exact absurd heq (by simp)
      rw [if_neg h3] at heq
      by_cases h4 : skip = true ∧ 220 < r ∧ 220 < g ∧ 220 < b
      · rw [if_pos h4] at heq
        exact absurd heq (by simp)
      rw [if_neg h4] at heq
      obtain rfl : (r, g, b) = c := Option.some.inj heq
      exact ⟨a, rfl, by omega, fun hsk hw => h4 ⟨hsk, hw.1, hw.2.1, hw.2.2⟩⟩

/-- Selector output with a comment line, an opaque red line, a transparent
line, a near-white line, and an opaque blue line. -/
def sampleStdout : List Char :=
  ("# ImageMagick pixel enumeration: 2,2,255,srgba\n0,0: (200,10,10,255)  #C80A0A  red\n0,1: (10,20,30,50)  #0A141E  dim\n1,0: (250,250,250,255)  #FAFAFA  white\n1,1: (5,5,200,255)  #0505C8  blue").toList

/-- Witness for claim C6 at a concrete selector output and count 1: the
returned palette keeps its length bound and its entry (200, 10, 10) traces
back to a parsed line with alpha 255. -/
theorem claimC6_wit :
    (get_dominant_colors sampleStdout 1 true).length ≤ 1
    ∧ ∃ line, line ∈ splitLines (pyStrip sampleStdout) ∧ ∃ a,
        searchRGBA line = some (200, 10, 10, a) ∧ 128 ≤ a
        ∧ (true = true → ¬(220 < 200 ∧ 220 < 10 ∧ 220 < 10)) := by
  refine ⟨(claimC6_thm sampleStdout 1 true).1, ?_⟩
  exact (claimC6_thm sampleStdout 1 true).2 (200, 10, 10) (by decide)

/-- Zero padding of the script's two-digit hex formatting agrees with the
spec encoding on every channel value. -/
lemma pad2_toDigits_eq_specHexByte : ∀ n, n < 256 → pad2 (Nat.toDigits 16 n) = specHexByte n := by
  decide

/-- Every base-16 digit character is a lowercase hexadecimal digit. -/
lemma digitChar_isLowerHex : ∀ m, m < 16 → isLowerHexDigit (Nat.digitChar m) = true := by
  decide

/-- Claim C9: for channel values up to 255 the injected fill string is the
hash sign followed by the 6-digit lowercase two-per-channel zero-padded
hexadecimal encoding, 7 characters in total, all of them lowercase hex
digits after the hash. -/
theorem claimC9_thm (r g b : Nat) (hr : r < 256) (hg : g < 256) (hb : b < 256) :
    hexColor (r, g, b) = '#' :: (specHexByte r ++ specHexByte g ++ specHexByte b)
    ∧ (hexColor (r, g, b)).length = 7
    ∧ ∀ ch ∈ (hexColor (r, g, b)).tail, isLowerHexDigit ch = true := by
  have hx : hexColor (r, g, b) = '#' :: (specHexByte r ++ specHexByte g ++ specHexByte b) := by
    show '#' :: (pad2 (Nat.toDigits 16 r) ++ pad2 (Nat.toDigits 16 g) ++ pad2 (Nat.toDigits 16 b))
        = _
    rw [pad2_toDigits_eq_specHexByte r hr, pad2_toDigits_eq_specHexByte g hg,
      pad2_toDigits_eq_specHexByte b hb]
  refine ⟨hx, by rw [hx]; simp [specHexByte], ?_⟩
  rw [hx]
  have hdiv : ∀ m, m < 256 → m / 16 < 16 := by
    intro m hm
    exact Nat.div_lt_of_lt_mul (by omega)
  have hmod : ∀ m : Nat, m % 16 < 16 := fun m => Nat.mod_lt _ (by omega)
  intro ch hch
  simp only [List.tail_cons, specHexByte, List.cons_append, List.nil_append,
    List.mem_cons, List.not_mem_nil, or_false] at hch
  rcases hch with h | h | h | h | h | h <;> subst h
  · exact digitChar_isLowerHex _ (hdiv r hr)
  · exact digitChar_isLowerHex _ (hmod r)
  · exact digitChar_isLowerHex _ (hdiv g hg)
  · exact digitChar_isLowerHex _ (hmod g)
  · exact digitChar_isLowerHex _ (hdiv b hb)
  · exact digitChar_isLowerHex _ (hmod b)

/-- Witness for claim C9 at the concrete color (255, 10, 0). -/
theorem claimC9_wit :
    hexColor (255, 10, 0) = '#' :: (specHexByte 255 ++ specHexByte 10 ++ specHexByte 0)
    ∧ hexColor (255, 10, 0) = ("#ff0a00").toList :=
  ⟨(claimC9_thm 255 10 0 (by decide) (by decide) (by decide)).1, rfl⟩

/-- A filterMap refines another filterMap along a pointwise implication, as a
sublist. -/
lemma filterMap_mono_sublist {α β : Type} (f g : α → Option β)
    (hfg : ∀ x y, f x = some y → g x = some y) :
    ∀ l : List α, List.Sublist (l.filterMap f) (l.filterMap g) := by
  intro l
  induction l with
  | nil => simp
  | cons x t ih =>
    cases hf : f x with
    | some y =>
      rw [List.filterMap_cons_some hf, List.filterMap_cons_some (hfg x y hf)]
      exact List.Sublist.cons₂ y ih
    | none =>
      rw [List.filterMap_cons_none hf]
      cases hg : g x with
      | none =>
        rw [List.filterMap_cons_none hg]
        exact ih
      | some z =>
        rw [List.filterMap_cons_some hg]
        exact List.Sublist.cons z ih

/-- The kept palette entry of a line is the projection of that line's raw
parsed quadruple. -/
lemma lineColor_le_lineRGBA (skip : Bool) (line : List Char) (c : Color)
    (h : lineColor skip line = some c) :
    Option.map (fun q : Nat × Nat × Nat × Nat => (q.1, q.2.1, q.2.2.1)) (lineRGBA line)
      = some c := by
  unfold lineColor at h
  unfold lineRGBA
  by_cases h1 : line = []
  · rw [if_pos h1] at h
    exact absurd h (by simp)
  rw [if_neg h1] at h
  rw [if_neg h1]
  by_cases h2 : line.head? = some '#'
  · rw [if_pos h2] at h
    exact absurd h (by simp)
  rw [if_neg h2] at h
  rw [if_neg h2]
  cases hs : searchRGBA line with
  | none =>
    rw [hs] at h
    exact absurd h (by simp [keepColor])
  | some q =>
    obtain ⟨r, g, b, a⟩ := q
    rw [hs] at h
    simp only [keepColor] at h
    by_cases h3 : a < 128
    · rw [if_pos h3] at h
      exact absurd h (by simp)
    rw [if_neg h3] at h
    by_cases h4 : skip = true ∧ 220 < r ∧ 220 < g ∧ 220 < b
    · rw [if_pos h4] at h
      exact absurd h (by simp)
    rw [if_neg h4] at h
    obtain rfl : (r, g, b) = c := Option.some.inj h
    rfl

/-- Claim C10: the palette returned by `get_dominant_colors` is an
order-preserving subsequence of the colors parsed from the selector
output — filtering and truncation never reorder surviving colors. -/
theorem claimC10_thm (stdout : List Char) (n : Nat) (skip : Bool) :
    List.Sublist (get_dominant_colors stdout n skip) (parsedColors stdout) := by
  have h1 : List.Sublist ((splitLines (pyStrip stdout)).filterMap (lineColor skip))
      ((splitLines (pyStrip stdout)).filterMap
        (fun line => Option.map (fun q : Nat × Nat × Nat × Nat => (q.1, q.2.1, q.2.2.1))
          (lineRGBA line))) :=
    filterMap_mono_sublist _ _ (fun x y => lineColor_le_lineRGBA skip x y) _
  have h2 : parsedColors stdout
      = (splitLines (pyStrip stdout)).filterMap
        (fun line => Option.map (fun q : Nat × Nat × Nat × Nat => (q.1, q.2.1, q.2.2.1))
          (lineRGBA line)) := by
    unfold parsedColors
    rw [List.map_filterMap]
  exact List.Sublist.trans (List.take_sublist _ _) (h2 ▸ h1)

end TraceByColor
